import Mathlib

/-!
Verification development for the `alpaca-finance` Rust client library.

The definitions below are a shallow embedding of the library's source:

* `src/util.rs`      — numeric coercion helpers (`to_f64`, `to_i32`, and the
  `to_u32` helper referenced from `streaming.rs`);
* `src/streaming.rs` — the streaming event pipeline (`Streamer::start`,
  `Streamer::stop`, the envelope types and their serde decoders);
* `src/order.rs`     — order placement validation and cancellation;
* `src/alpaca.rs`    — derivation of the streaming endpoint and the
  pre-serialized authentication frame;
* `src/error.rs`     — the library's error kinds (`InnerError`).

JSON documents are modelled by the inductive `Json`; serde_json numbers are
modelled as exact rationals (both Rust's `str::parse::<f64>` and serde_json's
number parsing are correctly rounding, so two textually identical decimal
literals always denote the same `f64`; the common value is represented by the
exact rational it rounds from).  Machine integers are modelled as `Int`/`Nat`
with explicit two's-complement wrapping where the Rust code uses `as` casts.
Rust panics (`unwrap`) are modelled explicitly: fallible per-frame processing
returns `Except String _` whose `error` constructor marks a panic of the task.
-/

set_option maxRecDepth 100000

namespace AlpacaRs

/-- Model of `serde_json::Value`.  Numbers are carried as exact rationals
(see the module comment for why this is faithful for this code base). -/
inductive Json where
  | null : Json
  | bool (b : Bool) : Json
  | num (q : ℚ) : Json
  | str (s : String) : Json
  | arr (elems : List Json) : Json
  | obj (fields : List (String × Json)) : Json

/-- The `\x7b` character (opening curly brace). -/
def lbrace : Char := Char.ofNat 123

/-- The `\x7d` character (closing curly brace). -/
def rbrace : Char := Char.ofNat 125

/-- First binding of key `k` in a JSON object's field list. -/
def Json.getField (j : Json) (k : String) : Option Json :=
  match j with
  | .obj fields => (fields.find? (fun p => p.1 == k)).map (fun p => p.2)
  | _ => none

/-! ## A small JSON text parser

Model of `serde_json`'s parsing of a document into a `Value`.  The parser is
fuel-indexed (the fuel only ever matters for concrete evaluation, where it is
always sufficient).  It is used to give string-level meaning to inbound text
frames, exactly where `streaming.rs` calls `serde_json::from_str`.
-/

/-- Is `c` JSON whitespace? -/
def isJsonWs (c : Char) : Bool :=
  c = ' ' || c = '\t' || c = '\n' || c = '\r'

/-- Drop leading JSON whitespace. -/
def skipWs : List Char → List Char
  | [] => []
  | c :: cs => if isJsonWs c then skipWs cs else c :: cs

/-- Decimal digit value of a character, if any. -/
def digitVal? (c : Char) : Option Nat :=
  if '0' ≤ c ∧ c ≤ '9' then some (c.toNat - '0'.toNat) else none

/-- Hexadecimal digit value of a character, if any. -/
def hexVal? (c : Char) : Option Nat :=
  if '0' ≤ c ∧ c ≤ '9' then some (c.toNat - '0'.toNat)
  else if 'a' ≤ c ∧ c ≤ 'f' then some (c.toNat - 'a'.toNat + 10)
  else if 'A' ≤ c ∧ c ≤ 'F' then some (c.toNat - 'A'.toNat + 10)
  else none

/-- Consume a maximal run of decimal digits, returning their value, how many
there were, and the rest of the input. -/
def takeDigits : List Char → Nat → Nat → (Nat × Nat × List Char)
  | [], acc, n => (acc, n, [])
  | c :: cs, acc, n =>
    match digitVal? c with
    | some d => takeDigits cs (acc * 10 + d) (n + 1)
    | none => (acc, n, c :: cs)

/-- Parse a JSON number (minus sign, integer part, optional fraction,
optional exponent) into an exact rational.  The mantissa and the power of
ten are accumulated in integer arithmetic and combined with `mkRat` at the
end (the exact rational `mantissa * 10 ^ (exponent - fraction digits)`). -/
def parseNumber (l : List Char) : Option (ℚ × List Char) :=
  let (neg, l₁) := match l with
    | '-' :: rest => (true, rest)
    | _ => (false, l)
  let (ip, ipn, l₂) := takeDigits l₁ 0 0
  if ipn = 0 then none else
  let (mant, fdigits, l₃) : Nat × Nat × List Char := match l₂ with
    | '.' :: rest =>
      let (fp, fpn, rest') := takeDigits rest 0 0
      (ip * 10 ^ fpn + fp, fpn, rest')
    | _ => (ip, 0, l₂)
  let (expo, l₄) : Option ℤ × List Char := match l₃ with
    | 'e' :: rest | 'E' :: rest =>
      let (eneg, rest₁) := match rest with
        | '-' :: r => (true, r)
        | '+' :: r => (false, r)
        | _ => (false, rest)
      let (ev, evn, rest₂) := takeDigits rest₁ 0 0
      if evn = 0 then (none, rest₂)
      else (some (if eneg then -(ev : ℤ) else (ev : ℤ)), rest₂)
    | _ => (some 0, l₃)
  match expo with
  | none => none
  | some e =>
    let sMant : ℤ := if neg then -(mant : ℤ) else (mant : ℤ)
    let scale : ℤ := e - (fdigits : ℤ)
    let q : ℚ :=
      if 0 ≤ scale then mkRat (sMant * ((10 : ℤ) ^ scale.toNat)) 1
      else mkRat sMant ((10 : ℕ) ^ (-scale).toNat)
    some (q, l₄)

/-- Parse the body of a JSON string (after the opening quote), handling the
standard escapes. -/
def parseStringBody (fuel : Nat) (l : List Char) (acc : List Char) :
    Option (String × List Char) :=
  match fuel with
  | 0 => none
  | fuel + 1 =>
    match l with
    | [] => none
    | '"' :: rest => some (String.mk acc.reverse, rest)
    | '\\' :: e :: rest =>
      match e with
      | '"' => parseStringBody fuel rest ('"' :: acc)
      | '\\' => parseStringBody fuel rest ('\\' :: acc)
      | '/' => parseStringBody fuel rest ('/' :: acc)
      | 'b' => parseStringBody fuel rest (Char.ofNat 8 :: acc)
      | 'f' => parseStringBody fuel rest (Char.ofNat 12 :: acc)
      | 'n' => parseStringBody fuel rest ('\n' :: acc)
      | 'r' => parseStringBody fuel rest ('\r' :: acc)
      | 't' => parseStringBody fuel rest ('\t' :: acc)
      | 'u' =>
        match rest with
        | h₁ :: h₂ :: h₃ :: h₄ :: rest' =>
          match hexVal? h₁, hexVal? h₂, hexVal? h₃, hexVal? h₄ with
          | some a, some b, some c, some d =>
            parseStringBody fuel rest'
              (Char.ofNat (((a * 16 + b) * 16 + c) * 16 + d) :: acc)
          | _, _, _, _ => none
        | _ => none
      | _ => none
    | c :: rest => parseStringBody fuel rest (c :: acc)

mutual

/-- Parse one JSON value. -/
def parseVal (fuel : Nat) (l : List Char) : Option (Json × List Char) :=
  match fuel with
  | 0 => none
  | fuel + 1 =>
    match skipWs l with
    | [] => none
    | c :: rest =>
      if c = '"' then
        (parseStringBody fuel rest []).map (fun p => (Json.str p.1, p.2))
      else if c = lbrace then
        match skipWs rest with
        | d :: rest' =>
          if d = rbrace then some (Json.obj [], rest')
          else parseFields fuel (d :: rest') []
        | [] => none
      else if c = '[' then
        match skipWs rest with
        | ']' :: rest' => some (Json.arr [], rest')
        | l' => parseElems fuel l' []
      else if c = 't' then
        match rest with
        | 'r' :: 'u' :: 'e' :: rest' => some (Json.bool true, rest')
        | _ => none
      else if c = 'f' then
        match rest with
        | 'a' :: 'l' :: 's' :: 'e' :: rest' => some (Json.bool false, rest')
        | _ => none
      else if c = 'n' then
        match rest with
        | 'u' :: 'l' :: 'l' :: rest' => some (Json.null, rest')
        | _ => none
      else
        (parseNumber (c :: rest)).map (fun p => (Json.num p.1, p.2))

/-- Parse the members of a JSON object, starting at a key. -/
def parseFields (fuel : Nat) (l : List Char) (acc : List (String × Json)) :
    Option (Json × List Char) :=
  match fuel with
  | 0 => none
  | fuel + 1 =>
    match skipWs l with
    | '"' :: rest =>
      match parseStringBody fuel rest [] with
      | none => none
      | some (key, rest₁) =>
        match skipWs rest₁ with
        | ':' :: rest₂ =>
          match parseVal fuel rest₂ with
          | none => none
          | some (v, rest₃) =>
            match skipWs rest₃ with
            | ',' :: rest₄ => parseFields fuel rest₄ ((key, v) :: acc)
            | d :: rest₄ =>
              if d = rbrace then some (Json.obj ((key, v) :: acc).reverse, rest₄)
              else none
            | [] => none
        | _ => none
    | _ => none

/-- Parse the elements of a JSON array. -/
def parseElems (fuel : Nat) (l : List Char) (acc : List Json) :
    Option (Json × List Char) :=
  match fuel with
  | 0 => none
  | fuel + 1 =>
    match parseVal fuel l with
    | none => none
    | some (v, rest) =>
      match skipWs rest with
      | ',' :: rest' => parseElems fuel rest' (v :: acc)
      | ']' :: rest' => some (Json.arr (v :: acc).reverse, rest')
      | _ => none

end

/-- Model of `serde_json::from_str::<Value>`: parse a complete document
(trailing content other than whitespace is an error). -/
def parseJson (s : String) : Option Json :=
  match parseVal (s.length + 1) s.data with
  | some (j, rest) => if skipWs rest = [] then some j else none
  | none => none

/-! ## Rendering (model of `serde_json::to_string` for the outbound frames) -/

/-- Escape a string for JSON output (the outbound frames of this library only
ever contain plain characters, but quotes and backslashes are handled). -/
def escapeChar (c : Char) : List Char :=
  if c = '"' then ['\\', '"']
  else if c = '\\' then ['\\', '\\']
  else [c]

/-- Render a rational that came from an integer JSON literal.  Outbound
frames of this library contain only strings, arrays and objects; integer
rendering is provided for test inputs. -/
def renderNum (q : ℚ) : String :=
  if q.den = 1 then toString q.num else toString q.num ++ "e0"

/-- Render a string as a quoted JSON string literal. -/
def renderString (s : String) : String :=
  String.mk ('"' :: (s.data.flatMap escapeChar) ++ ['"'])

mutual

/-- Render a `Json` value as a compact JSON document, the way
`serde_json::to_string` prints the outbound frames. -/
def Json.render : Json → String
  | .null => "null"
  | .bool true => "true"
  | .bool false => "false"
  | .num q => renderNum q
  | .str s => renderString s
  | .arr elems => "[" ++ renderElems elems ++ "]"
  | .obj fields => String.mk [lbrace] ++ renderFields fields ++ String.mk [rbrace]

/-- Render the comma-separated elements of a JSON array. -/
def renderElems : List Json → String
  | [] => ""
  | j :: rest =>
    j.render ++ (if rest.isEmpty then "" else ",") ++ renderElems rest

/-- Render the comma-separated members of a JSON object. -/
def renderFields : List (String × Json) → String
  | [] => ""
  | (k, v) :: rest =>
    renderString k ++ ":" ++ v.render ++ (if rest.isEmpty then "" else ",") ++
      renderFields rest

end

/-! ## `src/util.rs` — numeric coercion helpers

`serde_json::Number` is modelled by the exact rational it carries; Rust's
string-to-number parsers are modelled on decimal literals, with the exact
rational standing for the correctly rounded `f64` (both Rust's `str::parse`
and serde_json's number parsing are correctly rounding, so equal literals
always denote equal floats). -/

/-- Model of `serde_json::Number::as_i64`: the integer value when the number
is integral and fits in `i64`, otherwise `none`. -/
def Number.as_i64 (q : ℚ) : Option ℤ :=
  if q.den = 1 ∧ -(2 ^ 63) ≤ q.num ∧ q.num < 2 ^ 63 then some q.num else none

/-- Model of `serde_json::Number::as_u64`: the integer value when the number
is integral and fits in `u64`, otherwise `none`. -/
def Number.as_u64 (q : ℚ) : Option ℤ :=
  if q.den = 1 ∧ 0 ≤ q.num ∧ q.num < 2 ^ 64 then some q.num else none

/-- Model of `serde_json::Number::as_f64`: always succeeds, the exact
rational standing for the `f64` value. -/
def Number.as_f64 (q : ℚ) : Option ℚ := some q

/-- Value of a nonempty all-digit run, or `none` (helper for the Rust
integer parsers). -/
def decDigitsAux : List Char → Nat → Option Nat
  | [], acc => some acc
  | c :: cs, acc =>
    match digitVal? c with
    | some d => decDigitsAux cs (acc * 10 + d)
    | none => none

/-- Exact value of a Rust signed decimal integer literal: an optional sign
followed by at least one digit. -/
def rustParseIntRaw (s : String) : Option ℤ :=
  let (neg, ds) := match s.data with
    | '+' :: rest => (false, rest)
    | '-' :: rest => (true, rest)
    | l => (false, l)
  if ds.isEmpty then none
  else (decDigitsAux ds 0).map (fun n => if neg then -(n : ℤ) else (n : ℤ))

/-- Model of Rust `str::parse::<i32>` (the string branch of `to_i32`): the
exact decimal value when it lies in `i32` range, otherwise a parse error. -/
def rustParseI32 (s : String) : Option ℤ :=
  (rustParseIntRaw s).bind fun v =>
    if -(2 ^ 31) ≤ v ∧ v < 2 ^ 31 then some v else none

/-- Model of Rust `str::parse::<u32>`: no minus sign, and the value must lie
in `u32` range. -/
def rustParseU32 (s : String) : Option ℤ :=
  match s.data with
  | '-' :: _ => none
  | _ => (rustParseIntRaw s).bind fun v =>
      if 0 ≤ v ∧ v < 2 ^ 32 then some v else none

/-- Model of Rust `str::parse::<f64>` on decimal literals (the string branch
of `to_f64`); special forms such as `inf`/`NaN` are not modelled. -/
def rustParseF64 (s : String) : Option ℚ :=
  let l := match s.data with
    | '+' :: rest => rest
    | l => l
  match parseNumber l with
  | some (q, []) => some q
  | _ => none

/-- Two's-complement truncation of an `i64` value to `i32` (the Rust
`as i32` cast in `to_i32`). -/
def wrapI32 (n : ℤ) : ℤ := (n + 2 ^ 31) % 2 ^ 32 - 2 ^ 31

/-- Truncation of a `u64` value to `u32` (the Rust `as u32` cast). -/
def wrapU32 (n : ℤ) : ℤ := n % 2 ^ 32

/-- `util::to_f64` (src/util.rs lines 5-11): a JSON string is parsed as a
float, a JSON number is read with `as_f64`, anything else is the
"wrong type" error. -/
def to_f64 : Json → Except String ℚ
  | .str s =>
    match rustParseF64 s with
    | some q => .ok q
    | none => .error "invalid float literal"
  | .num q =>
    match Number.as_f64 q with
    | some v => .ok v
    | none => .error "Invalid number"
  | _ => .error "wrong type"

/-- `util::to_optional_f64` (src/util.rs lines 13-19): JSON `null` decodes
to `none`, any other value must decode with `to_f64`. -/
def to_optional_f64 : Json → Except String (Option ℚ)
  | .null => .ok none
  | j => (to_f64 j).map some

/-- `util::to_i32` (src/util.rs lines 21-27): a JSON string is parsed as an
`i32` (an out-of-range or malformed literal is a parse error); a JSON number
is read with `as_i64` (failing when not an integer in `i64` range) and then
truncated by the `as i32` cast. -/
def to_i32 : Json → Except String ℤ
  | .str s =>
    match rustParseI32 s with
    | some v => .ok v
    | none => .error "invalid i32 literal"
  | .num q =>
    match Number.as_i64 q with
    | some v => .ok (wrapI32 v)
    | none => .error "Invalid number"
  | _ => .error "wrong type"

/-- Modelled from the spec: `util::to_u32` is referenced by
`src/streaming.rs` (the `qty` fields of the `Fill` and `PartialFill`
events) but is absent from `src/util.rs` in this tree.  Per spec §4.2
("all numeric fields that may arrive as either JSON numbers or numeric
strings must coerce uniformly to the declared numeric type"), it is
modelled exactly like `to_i32` at type `u32`: a string parses as a `u32`,
a number is read with `as_u64` and truncated by the `as u32` cast. -/
def to_u32 : Json → Except String ℤ
  | .str s =>
    match rustParseU32 s with
    | some v => .ok v
    | none => .error "invalid u32 literal"
  | .num q =>
    match Number.as_u64 q with
    | some v => .ok (wrapU32 v)
    | none => .error "Invalid number"
  | _ => .error "wrong type"

/-! ## Domain enums and payload types

From `src/order.rs`, `src/account.rs` and `src/streaming.rs`.  `chrono`
timestamps are carried as their raw RFC 3339 strings (no claim depends on
timestamp validation). -/

/-- `order.rs`: `OrderSide`. -/
inductive OrderSide where
  | Buy
  | Sell
deriving DecidableEq

/-- `order.rs`: `OrderStatus`. -/
inductive OrderStatus where
  | Accepted
  | AcceptedForBidding
  | Calculated
  | Canceled
  | DoneForDay
  | Expired
  | Filled
  | New
  | PartiallyFilled
  | PendingCancel
  | PendingNew
  | PendingReplace
  | Rejected
  | Replaced
  | Stopped
  | Suspended
deriving DecidableEq

/-- `order.rs`: `OrderType`. -/
inductive OrderType where
  | Limit
  | Market
  | Stop
  | StopLimit
deriving DecidableEq

/-- `order.rs`: `TimeInForce`. -/
inductive TimeInForce where
  | CLS
  | DAY
  | FOK
  | GTC
  | IOC
  | OPG
deriving DecidableEq

/-- `account.rs`: `AccountStatus`. -/
inductive AccountStatus where
  | AccountUpdated
  | Active
  | ApprovalPending
  | Onboarding
  | Rejected
  | SubmissionFailed
  | Submitted
deriving DecidableEq

/-- `streaming.rs`: `AuthorizationStatus`. -/
inductive AuthorizationStatus where
  | Authorized
  | Unauthorized
deriving DecidableEq

/-- `streaming.rs`: `AuthorizationAction`. -/
inductive AuthorizationAction where
  | Authenticate
  | Listen
deriving DecidableEq

/-- `streaming.rs`: `Authorization`. -/
structure Authorization where
  status : AuthorizationStatus
  action : AuthorizationAction
deriving DecidableEq

/-- `order.rs`: the `Order` struct (timestamp-free REST payload). -/
structure Order where
  id : String
  asset_class : String
  client_order_id : String
  extended_hours : Bool
  filled_qty : ℤ
  filled_avg_price : Option ℚ
  limit_price : Option ℚ
  order_type : OrderType
  qty : ℤ
  side : OrderSide
  status : OrderStatus
  stop_price : Option ℚ
  symbol : String
  time_in_force : TimeInForce
deriving DecidableEq

/-- `streaming.rs`: `AccountEvent` (timestamps carried as raw strings). -/
structure AccountEvent where
  id : String
  created : String
  updated : String
  deleted : Option String
  status : AccountStatus
  cash : ℚ
  cash_withdrawable : ℚ
deriving DecidableEq

/-- `streaming.rs`: `OrderEvent` (tagged by the `event` field; the `qty`
fields carry the `u32` value as an integer, matching `to_u32`). -/
inductive OrderEvent where
  | Calculated (order : Order)
  | Canceled (timestamp : String) (order : Order)
  | DoneForDay (order : Order)
  | Expired (timestamp : String) (order : Order)
  | Fill (timestamp : String) (price : ℚ) (qty : ℤ) (order : Order)
  | New (order : Order)
  | OrderCancelRejected (order : Order)
  | OrderReplaceRejected (order : Order)
  | PartialFill (timestamp : String) (price : ℚ) (qty : ℤ) (order : Order)
  | PendingCancel (order : Order)
  | PendingNew (order : Order)
  | PendingReplace (order : Order)
  | Rejected (timestamp : String) (order : Order)
  | Replaced (timestamp : String) (order : Order)
  | Stopped (order : Order)
  | Suspended (order : Order)
deriving DecidableEq

/-- `streaming.rs`: `ListenStream`. -/
structure ListenStream where
  streams : List String
deriving DecidableEq

/-- `streaming.rs`: `StreamMessage` (tagged by `stream`, content in
`data`). -/
inductive StreamMessage where
  | Account (event : AccountEvent)
  | Authorization (auth : Authorization)
  | Listening (listen : ListenStream)
  | Order (event : OrderEvent)
deriving DecidableEq

/-! ## Serde decoders

Models of the serde `Deserialize` derives of the payload types, following
each type's serde attributes (`tag`, `content`, `rename`, `rename_all`,
`deserialize_with`). -/

/-- Read a JSON string value. -/
def Json.asStr : Json → Except String String
  | .str s => .ok s
  | _ => .error "expected string"

/-- Read a JSON boolean value. -/
def Json.asBool : Json → Except String Bool
  | .bool b => .ok b
  | _ => .error "expected bool"

/-- Required object field (serde errors on a missing field). -/
def getF (j : Json) (k : String) : Except String Json :=
  match j.getField k with
  | some v => .ok v
  | none => .error ("missing field " ++ k)

/-- Optional object field of a plain `Option` type (serde treats a missing
or null field as `None`). -/
def getOptStrF (j : Json) (k : String) : Except String (Option String) :=
  match j.getField k with
  | none => .ok none
  | some .null => .ok none
  | some v => (v.asStr).map some

/-- A `chrono::DateTime<Utc>` field, carried as its raw string. -/
def decodeTimestamp (j : Json) : Except String String := j.asStr

/-- `#[serde(rename_all = "snake_case")] OrderSide`. -/
def decodeOrderSide (j : Json) : Except String OrderSide := do
  match ← j.asStr with
  | "buy" => .ok .Buy
  | "sell" => .ok .Sell
  | _ => .error "unknown variant OrderSide"

/-- `#[serde(rename_all = "snake_case")] OrderStatus`. -/
def decodeOrderStatus (j : Json) : Except String OrderStatus := do
  match ← j.asStr with
  | "accepted" => .ok .Accepted
  | "accepted_for_bidding" => .ok .AcceptedForBidding
  | "calculated" => .ok .Calculated
  | "canceled" => .ok .Canceled
  | "done_for_day" => .ok .DoneForDay
  | "expired" => .ok .Expired
  | "filled" => .ok .Filled
  | "new" => .ok .New
  | "partially_filled" => .ok .PartiallyFilled
  | "pending_cancel" => .ok .PendingCancel
  | "pending_new" => .ok .PendingNew
  | "pending_replace" => .ok .PendingReplace
  | "rejected" => .ok .Rejected
  | "replaced" => .ok .Replaced
  | "stopped" => .ok .Stopped
  | "suspended" => .ok .Suspended
  | _ => .error "unknown variant OrderStatus"

/-- `#[serde(rename_all = "snake_case")] OrderType`. -/
def decodeOrderType (j : Json) : Except String OrderType := do
  match ← j.asStr with
  | "limit" => .ok .Limit
  | "market" => .ok .Market
  | "stop" => .ok .Stop
  | "stop_limit" => .ok .StopLimit
  | _ => .error "unknown variant OrderType"

/-- `#[serde(rename_all = "lowercase")] TimeInForce`. -/
def decodeTimeInForce (j : Json) : Except String TimeInForce := do
  match ← j.asStr with
  | "cls" => .ok .CLS
  | "day" => .ok .DAY
  | "fok" => .ok .FOK
  | "gtc" => .ok .GTC
  | "ioc" => .ok .IOC
  | "opg" => .ok .OPG
  | _ => .error "unknown variant TimeInForce"

/-- `#[serde(rename_all = "SCREAMING_SNAKE_CASE")] AccountStatus`. -/
def decodeAccountStatus (j : Json) : Except String AccountStatus := do
  match ← j.asStr with
  | "ACCOUNT_UPDATED" => .ok .AccountUpdated
  | "ACTIVE" => .ok .Active
  | "APPROVAL_PENDING" => .ok .ApprovalPending
  | "ONBOARDING" => .ok .Onboarding
  | "REJECTED" => .ok .Rejected
  | "SUBMISSION_FAILED" => .ok .SubmissionFailed
  | "SUBMITTED" => .ok .Submitted
  | _ => .error "unknown variant AccountStatus"

/-- `#[serde(rename="authorized"/"unauthorized")] AuthorizationStatus`. -/
def decodeAuthorizationStatus (j : Json) : Except String AuthorizationStatus := do
  match ← j.asStr with
  | "authorized" => .ok .Authorized
  | "unauthorized" => .ok .Unauthorized
  | _ => .error "unknown variant AuthorizationStatus"

/-- `#[serde(rename="authenticate"/"listen")] AuthorizationAction`. -/
def decodeAuthorizationAction (j : Json) : Except String AuthorizationAction := do
  match ← j.asStr with
  | "authenticate" => .ok .Authenticate
  | "listen" => .ok .Listen
  | _ => .error "unknown variant AuthorizationAction"

/-- `streaming.rs`: `Authorization`'s derive. -/
def decodeAuthorization (j : Json) : Except String Authorization := do
  let status ← decodeAuthorizationStatus (← getF j "status")
  let action ← decodeAuthorizationAction (← getF j "action")
  .ok { status := status, action := action }

/-- `order.rs`: `Order`'s derive (field renames and `deserialize_with`
helpers as in the source). -/
def decodeOrder (j : Json) : Except String Order := do
  let id ← (← getF j "id").asStr
  let asset_class ← (← getF j "asset_class").asStr
  let client_order_id ← (← getF j "client_order_id").asStr
  let extended_hours ← (← getF j "extended_hours").asBool
  let filled_qty ← to_i32 (← getF j "filled_qty")
  let filled_avg_price ← to_optional_f64 (← getF j "filled_avg_price")
  let limit_price ← to_optional_f64 (← getF j "limit_price")
  let order_type ← decodeOrderType (← getF j "type")
  let qty ← to_i32 (← getF j "qty")
  let side ← decodeOrderSide (← getF j "side")
  let status ← decodeOrderStatus (← getF j "status")
  let stop_price ← to_optional_f64 (← getF j "stop_price")
  let symbol ← (← getF j "symbol").asStr
  let time_in_force ← decodeTimeInForce (← getF j "time_in_force")
  .ok { id := id, asset_class := asset_class, client_order_id := client_order_id,
        extended_hours := extended_hours, filled_qty := filled_qty,
        filled_avg_price := filled_avg_price, limit_price := limit_price,
        order_type := order_type, qty := qty, side := side, status := status,
        stop_price := stop_price, symbol := symbol, time_in_force := time_in_force }

/-- `streaming.rs`: `AccountEvent`'s derive. -/
def decodeAccountEvent (j : Json) : Except String AccountEvent := do
  let id ← (← getF j "id").asStr
  let created ← decodeTimestamp (← getF j "created_at")
  let updated ← decodeTimestamp (← getF j "updated_at")
  let deleted ← getOptStrF j "deleted_at"
  let status ← decodeAccountStatus (← getF j "status")
  let cash ← to_f64 (← getF j "cash")
  let cash_withdrawable ← to_f64 (← getF j "cash_withdrawable")
  .ok { id := id, created := created, updated := updated, deleted := deleted,
        status := status, cash := cash, cash_withdrawable := cash_withdrawable }

/-- `streaming.rs`: `OrderEvent`'s derive — internally tagged on `event`,
`rename_all = "snake_case"`, with `position_qty` renamed to `qty` and the
numeric fields decoded through `to_f64`/`to_u32`. -/
def decodeOrderEvent (j : Json) : Except String OrderEvent := do
  let tag ← (← getF j "event").asStr
  match tag with
  | "calculated" => .ok (.Calculated (← decodeOrder (← getF j "order")))
  | "canceled" =>
    .ok (.Canceled (← decodeTimestamp (← getF j "timestamp"))
      (← decodeOrder (← getF j "order")))
  | "done_for_day" => .ok (.DoneForDay (← decodeOrder (← getF j "order")))
  | "expired" =>
    .ok (.Expired (← decodeTimestamp (← getF j "timestamp"))
      (← decodeOrder (← getF j "order")))
  | "fill" =>
    .ok (.Fill (← decodeTimestamp (← getF j "timestamp"))
      (← to_f64 (← getF j "price"))
      (← to_u32 (← getF j "position_qty"))
      (← decodeOrder (← getF j "order")))
  | "new" => .ok (.New (← decodeOrder (← getF j "order")))
  | "order_cancel_rejected" =>
    .ok (.OrderCancelRejected (← decodeOrder (← getF j "order")))
  | "order_replace_rejected" =>
    .ok (.OrderReplaceRejected (← decodeOrder (← getF j "order")))
  | "partial_fill" =>
    .ok (.PartialFill (← decodeTimestamp (← getF j "timestamp"))
      (← to_f64 (← getF j "price"))
      (← to_u32 (← getF j "position_qty"))
      (← decodeOrder (← getF j "order")))
  | "pending_cancel" => .ok (.PendingCancel (← decodeOrder (← getF j "order")))
  | "pending_new" => .ok (.PendingNew (← decodeOrder (← getF j "order")))
  | "pending_replace" => .ok (.PendingReplace (← decodeOrder (← getF j "order")))
  | "rejected" =>
    .ok (.Rejected (← decodeTimestamp (← getF j "timestamp"))
      (← decodeOrder (← getF j "order")))
  | "replaced" =>
    .ok (.Replaced (← decodeTimestamp (← getF j "timestamp"))
      (← decodeOrder (← getF j "order")))
  | "stopped" => .ok (.Stopped (← decodeOrder (← getF j "order")))
  | "suspended" => .ok (.Suspended (← decodeOrder (← getF j "order")))
  | _ => .error "unknown variant OrderEvent"

/-- `streaming.rs`: `ListenStream`'s derive. -/
def decodeListenStream (j : Json) : Except String ListenStream := do
  match ← getF j "streams" with
  | .arr elems =>
    let names ← elems.mapM Json.asStr
    .ok { streams := names }
  | _ => .error "expected array"

/-- `streaming.rs`: `StreamMessage`'s derive — adjacently tagged, tag
`stream`, content `data`. -/
def decodeStreamMessage (j : Json) : Except String StreamMessage := do
  let tag ← (← getF j "stream").asStr
  let data ← getF j "data"
  match tag with
  | "account_updates" => (decodeAccountEvent data).map .Account
  | "authorization" => (decodeAuthorization data).map .Authorization
  | "listening" => (decodeListenStream data).map .Listening
  | "trade_updates" => (decodeOrderEvent data).map .Order
  | _ => .error "unknown variant StreamMessage"

/-- Model of `serde_json::from_str::<StreamMessage>` as called in
`Streamer::start` (src/streaming.rs line 228): parse the document, then
run the derived decoder. -/
def from_str (s : String) : Except String StreamMessage :=
  match parseJson s with
  | none => .error "JSON syntax error"
  | some j => decodeStreamMessage j

/-! ## `src/error.rs` — the library's error kinds -/

/-- `error.rs`: `InnerError`.  External error sources (`reqwest`,
`serde_json`, `url`, `tungstenite`) are carried as their message strings. -/
inductive InnerError where
  | AlpacaDown
  | BadData (source : String)
  | CallFailed (url : String) (status : Nat)
  | InternalJSON (source : String)
  | InternalURL (url : String) (source : String)
  | InvalidCredentials
  | OrderForbidden
  | OrderInvalid (reason : String)
  | OrderNotCancelable (order_id : String)
  | OrderNotFound (order_id : String)
  | RequestFailed (source : String)
  | StreamingFailed (source : String)
  | Unknown
deriving DecidableEq

/-! ## `src/streaming.rs` — the streaming pipeline

The reader pipeline (the two chained `filter_map` stages of
`Streamer::start`), the writer loop, the shared shutdown flag and the
synchronous startup enqueues.  A Rust panic (an `unwrap` firing) is modelled
by the `error`/`panicked` constructor of the result. -/

/-- Model of `tungstenite::protocol::Message`: the frame variants the
reader distinguishes. -/
inductive Message where
  | text (s : String)
  | binary (bytes : List Nat)
  | ping (payload : List Nat)
  | pong (payload : List Nat)
  | close
deriving DecidableEq

/-- Is `b` a UTF-8 continuation byte? -/
def isCont (b : Nat) : Bool := 128 ≤ b ∧ b ≤ 191

/-- Model of the UTF-8 validation done by `String::from_utf8`: the unicode
scalar values of a byte list, or `none` when the bytes are not valid UTF-8
(truncated sequences, stray continuation bytes, overlong forms, surrogates
and out-of-range values are rejected, as in Rust). -/
def utf8Chars? : List Nat → Option (List Nat)
  | [] => some []
  | b :: l =>
    if b < 128 then (utf8Chars? l).map (b :: ·)
    else
      match l with
      | c :: l₂ =>
        if 194 ≤ b ∧ b ≤ 223 ∧ isCont c then
          (utf8Chars? l₂).map (((b - 192) * 64 + (c - 128)) :: ·)
        else
          match l₂ with
          | d :: l₃ =>
            if 224 ≤ b ∧ b ≤ 239 ∧ isCont c ∧ isCont d
                ∧ (b ≠ 224 ∨ 160 ≤ c) ∧ (b ≠ 237 ∨ c ≤ 159) then
              (utf8Chars? l₃).map
                ((((b - 224) * 64 + (c - 128)) * 64 + (d - 128)) :: ·)
            else
              match l₃ with
              | e :: l₄ =>
                if 240 ≤ b ∧ b ≤ 244 ∧ isCont c ∧ isCont d ∧ isCont e
                    ∧ (b ≠ 240 ∨ 144 ≤ c) ∧ (b ≠ 244 ∨ c ≤ 143) then
                  (utf8Chars? l₄).map
                    (((((b - 240) * 64 + (c - 128)) * 64 + (d - 128)) * 64
                      + (e - 128)) :: ·)
                else none
              | [] => none
          | [] => none
      | [] => none

/-- Model of `String::from_utf8` (src/streaming.rs line 222). -/
def utf8String? (bytes : List Nat) : Option String :=
  (utf8Chars? bytes).map (fun cps => String.mk (cps.map Char.ofNat))

/-- The payload of the pong replies: the bytes of `"pong"` (line 219). -/
def pongPayload : List Nat := [112, 111, 110, 103]

/-- The state shared between the reader closures, the writer loop and
`stop()`: the shutdown flag (the `Arc<Mutex<bool>>`) and the outbound
`mpsc` queue feeding the writer. -/
structure ConnState where
  shutdown : Bool
  outbound : List Message
deriving DecidableEq

/-- `Streamer::new` (line 182): the shared shutdown flag starts out
`false` (the outbound queue of `start` starts empty). -/
def Streamer.new : ConnState := { shutdown := false, outbound := [] }

/-- `Streamer::stop` (lines 237-240): set the shared shutdown flag. -/
def Streamer.stop (st : ConnState) : ConnState := { st with shutdown := true }

/-- The second `filter_map` of `Streamer::start` (lines 227-233): an order
or account envelope is forwarded, every other envelope is dropped. -/
def forwardFilter : StreamMessage → Option StreamMessage
  | .Order e => some (.Order e)
  | .Account a => some (.Account a)
  | _ => none

/-- Is the envelope a caller-visible domain event (order or account
variant)? -/
def isDomain : StreamMessage → Bool
  | .Order _ => true
  | .Account _ => true
  | _ => false

/-- The payload path of the reader pipeline: `serde_json::from_str(&msg)`
followed by `unwrap` (line 228, a decode failure panics the task) and the
variant filter. -/
def processText (st : ConnState) (s : String) :
    Except String (ConnState × Option StreamMessage) :=
  match from_str s with
  | .error e => .error ("reader task panicked: " ++ e)
  | .ok env => .ok (st, forwardFilter env)

/-- One inbound frame through the two chained `filter_map` stages of
`Streamer::start` (lines 216-233): a `Ping` enqueues one pong reply and
forwards nothing, a `Close` sets the shared shutdown flag and forwards
nothing, `Text`/`Binary` payloads are decoded (a failed UTF-8 conversion
at line 222 or a failed deserialization at line 228 panics the task via
`unwrap`, modelled by `.error`), and any other frame is dropped. -/
def processFrame (st : ConnState) : Message → Except String (ConnState × Option StreamMessage)
  | .ping _ => .ok ({ st with outbound := st.outbound ++ [.pong pongPayload] }, none)
  | .close => .ok ({ st with shutdown := true }, none)
  | .text s => processText st s
  | .binary bytes =>
    match utf8String? bytes with
    | none => .error "reader task panicked: String::from_utf8 failed"
    | some s => processText st s
  | .pong _ => .ok (st, none)

/-- A list of inbound frames through the pipeline, in order.  The result
collects the forwarded caller-visible events; processing stops at the
first panic (the panic tears the reader task down, so later frames are
never seen). -/
def processFrames (st : ConnState) :
    List Message → Except String (ConnState × List StreamMessage)
  | [] => .ok (st, [])
  | m :: ms => do
    let (st₁, out?) ← processFrame st m
    let (st₂, outs) ← processFrames st₁ ms
    .ok (st₂, out?.toList ++ outs)

/-- The writer loop spawned by `start` (lines 201-211), as a function of
the shutdown flag value observed at each iteration's check and of the
queued outbound frames: the frames actually written to the socket.  Each
iteration first checks the flag (breaking when it is true) and only then
takes the next queued frame. -/
def writerLoop : List Bool → List Message → List Message
  | f :: flags, m :: ms => if f then [] else m :: writerLoop flags ms
  | _, _ => []

/-! ## `src/alpaca.rs` — streaming endpoint and authentication frame -/

/-- The authentication `ActionMessage::Authenticate` of `alpaca.rs` (lines
12-22, 61): adjacently tagged as
`\x7b"action":"authenticate","data":\x7b"key_id":…,"secret_key":…\x7d\x7d`. -/
def authMessage (key secret : String) : Json :=
  Json.obj [("action", .str "authenticate"),
            ("data", Json.obj [("key_id", .str key), ("secret_key", .str secret)])]

/-- `Alpaca::stream` (alpaca.rs lines 55-65): replace the first four
characters of the REST host with "ws", append "/stream", and pre-serialize
the authentication frame. -/
def Alpaca.stream (host key secret : String) : String × String :=
  ("ws" ++ (host.drop 4) ++ "/stream", (authMessage key secret).render)

/-- The subscription `ActionMessage::Listen` built in `Streamer::start`
(streaming.rs line 194), naming the fixed stream set. -/
def listenMessage : Json :=
  Json.obj [("action", .str "listen"),
            ("data", Json.obj
              [("streams", .arr [.str "trade_updates", .str "account_updates"])])]

/-- The two synchronous enqueues at the top of `Streamer::start` (lines
192-197): the pre-serialized authentication frame first, the subscription
frame second. -/
def startQueue (key secret : String) : List Message :=
  [.text ((authMessage key secret).render), .text (listenMessage.render)]

/-- Outcome of a Rust call that may panic instead of returning. -/
inductive RustResult (α : Type) where
  | ok (val : α)
  | panicked (msg : String)
deriving DecidableEq

/-- `Streamer::start` up to its synchronous enqueues (lines 185-197): the
socket connection outcome is supplied by the environment; on a connection
error the `unwrap` at line 189 panics the call — no `InnerError` value (in
particular no `StreamingFailed`) is ever produced — and otherwise the
authentication and subscription frames are enqueued in order. -/
def Streamer.start (key secret : String) (conn : Except String Unit) :
    RustResult (List Message) :=
  match conn with
  | .error e => .panicked ("called Result::unwrap on an Err value: " ++ e)
  | .ok _ => .ok (startQueue key secret)

/-! ## `src/order.rs` — order placement and cancellation -/

/-- `order.rs`: `OrderBuilder` (the serialized request body fields). -/
structure OrderBuilder where
  extended_hours : Bool
  limit_price : Option ℚ
  order_type : OrderType
  qty : ℤ
  side : OrderSide
  stop_price : Option ℚ
  symbol : String
  time_in_force : TimeInForce
deriving DecidableEq

/-- `impl Default for OrderBuilder` (order.rs lines 234-247). -/
def OrderBuilder.default : OrderBuilder :=
  { symbol := "", extended_hours := false, qty := 0, side := .Buy,
    order_type := .Market, time_in_force := .DAY,
    limit_price := none, stop_price := none }

/-- `Order::buy` (order.rs lines 163-165). -/
def Order.buy (symbol : String) (qty : ℤ) (order_type : OrderType)
    (time_in_force : TimeInForce) : OrderBuilder :=
  { OrderBuilder.default with
    symbol := symbol, qty := qty, side := .Buy,
    order_type := order_type, time_in_force := time_in_force }

/-- `Order::sell` (order.rs lines 167-169). -/
def Order.sell (symbol : String) (qty : ℤ) (order_type : OrderType)
    (time_in_force : TimeInForce) : OrderBuilder :=
  { OrderBuilder.default with
    symbol := symbol, qty := qty, side := .Sell,
    order_type := order_type, time_in_force := time_in_force }

/-- `OrderBuilder::limit_price` (order.rs lines 200-203). -/
def OrderBuilder.setLimitPrice (b : OrderBuilder) (p : ℚ) : OrderBuilder :=
  { b with limit_price := some p }

/-- `OrderBuilder::stop_price` (order.rs lines 205-208). -/
def OrderBuilder.setStopPrice (b : OrderBuilder) (p : ℚ) : OrderBuilder :=
  { b with stop_price := some p }

/-- `OrderBuilder::extended_hours` (order.rs lines 195-198). -/
def OrderBuilder.setExtendedHours (b : OrderBuilder) (e : Bool) : OrderBuilder :=
  { b with extended_hours := e }

/-- An HTTP response: status code and JSON body. -/
structure HttpResponse where
  status : Nat
  body : Json

/-- `reqwest::StatusCode::is_success`: a 2xx status. -/
def isSuccess (status : Nat) : Bool := 200 ≤ status ∧ status < 300

/-- `OrderBuilder::place` (order.rs lines 210-232), paired with the number
of HTTP requests issued: the three client-side validations run before any
network call (request count 0); otherwise one `POST v2/orders` is issued
and the response mapped (2xx → the decoded order, 403 → `OrderForbidden`,
other → `Unknown`).  `order.rs` spells the error constructor
`Error::InvalidOrder`; the corresponding kind declared in `error.rs` is
`OrderInvalid\x7breason\x7d`, which this model uses. -/
def OrderBuilder.place (b : OrderBuilder) (resp : HttpResponse) :
    Except InnerError Order × Nat :=
  if (b.order_type = .Limit ∨ b.order_type = .StopLimit) ∧ b.limit_price = none then
    (.error (.OrderInvalid "Limit orders need a limit price."), 0)
  else if (b.order_type = .Stop ∨ b.order_type = .StopLimit) ∧ b.stop_price = none then
    (.error (.OrderInvalid "Stop orders need a stop price."), 0)
  else if b.extended_hours ∧ (b.order_type ≠ .Limit ∨ b.time_in_force ≠ .DAY) then
    (.error (.OrderInvalid "Extended hours only works limit orders for today"), 0)
  else
    ((if isSuccess resp.status then
        match decodeOrder resp.body with
        | .ok o => .ok o
        | .error e => .error (.BadData e)
      else if resp.status = 403 then .error .OrderForbidden
      else .error .Unknown), 1)

/-- `Order::cancel`'s request (order.rs line 137): method and path of the
issued HTTP request. -/
def Order.cancelRequest (o : Order) : String × String :=
  ("DELETE", "v2/orders/" ++ o.id)

/-- `Order::cancel`'s response mapping (order.rs lines 136-146): 2xx →
`Ok(())`, 404 → `OrderNotFound` with the order's id, 422 →
`OrderNotCancelable` with the order's id, any other status → `Unknown`. -/
def Order.cancel (o : Order) (status : Nat) : Except InnerError Unit :=
  if isSuccess status then .ok ()
  else match status with
    | 404 => .error (.OrderNotFound o.id)
    | 422 => .error (.OrderNotCancelable o.id)
    | _ => .error .Unknown

/-! ## Concrete sample inputs (after the repository's own test fixtures) -/

/-- A complete order object, JSON form (after `tests/order_data`). -/
def sampleOrderJson : Json := Json.obj [
  ("id", .str "904837e3-3b76-47ec-b432-046db621571b"),
  ("asset_class", .str "us_equity"),
  ("client_order_id", .str "904837e3-3b76-47ec-b432-046db621571b"),
  ("extended_hours", .bool false),
  ("filled_qty", .str "100"),
  ("filled_avg_price", .str "179.08"),
  ("limit_price", .str "107.00"),
  ("type", .str "limit"),
  ("qty", .str "15"),
  ("side", .str "buy"),
  ("status", .str "filled"),
  ("stop_price", .null),
  ("symbol", .str "AAPL"),
  ("time_in_force", .str "day")]

/-- The typed order `sampleOrderJson` decodes to. -/
def sampleOrder : Order :=
  { id := "904837e3-3b76-47ec-b432-046db621571b", asset_class := "us_equity",
    client_order_id := "904837e3-3b76-47ec-b432-046db621571b",
    extended_hours := false, filled_qty := 100,
    filled_avg_price := some (mkRat 17908 100),
    limit_price := some (mkRat 10700 100),
    order_type := .Limit, qty := 15, side := .Buy, status := .Filled,
    stop_price := none, symbol := "AAPL", time_in_force := .DAY }

/-- Timestamp used in the fill sample. -/
def fillTimestamp : String := "2021-03-16T18:38:01.942282Z"

/-- A `trade_updates` envelope with event `fill`, `price` as the JSON
string "179.08" and `position_qty` as the JSON number 100. -/
def fillEnvelope : Json := Json.obj [
  ("stream", .str "trade_updates"),
  ("data", Json.obj [
    ("event", .str "fill"),
    ("timestamp", .str fillTimestamp),
    ("price", .str "179.08"),
    ("position_qty", .num 100),
    ("order", sampleOrderJson)])]

/-- The wire text of `fillEnvelope`. -/
def fillText : String := fillEnvelope.render

/-- The domain event `fillEnvelope` decodes to. -/
def fillEvent : StreamMessage :=
  .Order (.Fill fillTimestamp (mkRat 17908 100) 100 sampleOrder)

/-- The authorization envelope of the repository's own test
(streaming.rs line 250). -/
def authEnvelope : Json := Json.obj [
  ("stream", .str "authorization"),
  ("data", Json.obj [
    ("action", .str "authenticate"),
    ("status", .str "authorized")])]

/-- The wire text of `authEnvelope`. -/
def authText : String := authEnvelope.render

/-! # Theorems

Helper lemmas first, then one theorem per claim (with its witness or
counterexample where required). -/

/-- The payload path never changes the shared state: a successfully
processed text payload returns the state unchanged. -/
theorem processText_state (st : ConnState) (s : String) (st' : ConnState)
    (out : Option StreamMessage) (h : processText st s = .ok (st', out)) :
    st' = st := by
  unfold processText at h
  cases hfs : from_str s with
  | error e => rw [hfs] at h; cases h
  | ok env =>
    rw [hfs] at h
    simp only [Except.ok.injEq, Prod.mk.injEq] at h
    exact h.1.symm

/-- A successful `rustParseI32` returns the raw decimal value, which lies
in `i32` range. -/
theorem parseI32_bounds (s : String) (v : ℤ) (hp : rustParseI32 s = some v) :
    rustParseIntRaw s = some v ∧ -(2 ^ 31) ≤ v ∧ v < 2 ^ 31 := by
  unfold rustParseI32 at hp
  obtain ⟨w, hw, hf⟩ := Option.bind_eq_some.mp hp
  by_cases hc : -(2 ^ 31) ≤ w ∧ w < 2 ^ 31
  · rw [if_pos hc] at hf
    obtain rfl := Option.some.inj hf
    exact ⟨hw, hc⟩
  · rw [if_neg hc] at hf; cases hf

/-- `as_i64` on an integer-valued number in `i64` range returns that
integer. -/
theorem as_i64_intCast (v : ℤ) (hlo : -(2 ^ 63) ≤ v) (hhi : v < 2 ^ 63) :
    Number.as_i64 ((v : ℚ)) = some v := by
  unfold Number.as_i64
  rw [if_pos]
  · rw [Rat.intCast_num]
  · exact ⟨Rat.intCast_den v, by rwa [Rat.intCast_num], by rwa [Rat.intCast_num]⟩

/-- `as_u64` on an integer-valued number in `u64` range returns that
integer. -/
theorem as_u64_intCast (v : ℤ) (hlo : 0 ≤ v) (hhi : v < 2 ^ 64) :
    Number.as_u64 ((v : ℚ)) = some v := by
  unfold Number.as_u64
  rw [if_pos]
  · rw [Rat.intCast_num]
  · exact ⟨Rat.intCast_den v, by rwa [Rat.intCast_num], by rwa [Rat.intCast_num]⟩

/-- C1: the claim says a payload frame whose content fails to decode (a
binary frame that is not valid UTF-8, or a payload whose JSON does not
parse as a stream envelope) is dropped alone, with the connection
continuing on subsequent frames.  The code instead `unwrap`s both decode
steps (streaming.rs lines 222 and 228): this theorem evaluates the reader
pipeline at such frames and shows the reader task panics — and, third
conjunct, that a well-formed frame queued after the malformed one is never
processed, so the caller-visible sequence does not continue. -/
theorem frame_decode_failure_panics_connection :
    processFrame Streamer.new (.binary [255])
      = .error "reader task panicked: String::from_utf8 failed"
    ∧ processFrame Streamer.new (.text "not json")
      = .error "reader task panicked: JSON syntax error"
    ∧ processFrames Streamer.new [.binary [255], .text fillText]
      = .error "reader task panicked: String::from_utf8 failed" :=
  ⟨rfl, rfl, rfl⟩

/-- C2: for every inbound frame while streaming — a `Ping` enqueues exactly
one `Pong` reply on the outbound queue and forwards nothing; a `Close` sets
the shared shutdown flag and forwards nothing; and a decoded envelope
(arriving as text, or as UTF-8 binary) reaches the caller-visible sequence
exactly when it is an order-event or account-event variant, while
authorization and subscription-ack variants are consumed internally. -/
theorem ping_close_and_forwarding_rules :
    ∀ (st : ConnState) (p bytes : List Nat) (s : String) (env : StreamMessage),
      processFrame st (.ping p)
        = .ok ({ st with outbound := st.outbound ++ [.pong pongPayload] }, none)
      ∧ processFrame st .close = .ok ({ st with shutdown := true }, none)
      ∧ (from_str s = .ok env →
          processFrame st (.text s) = .ok (st, if isDomain env then some env else none))
      ∧ (utf8String? bytes = some s → from_str s = .ok env →
          processFrame st (.binary bytes)
            = .ok (st, if isDomain env then some env else none)) := by
  intro st p bytes s env
  have hf : forwardFilter env = if isDomain env then some env else none := by
    cases env <;> rfl
  refine ⟨rfl, rfl, fun h => ?_, fun hb h => ?_⟩
  · show processText st s = _
    rw [processText, h]
    exact congrArg
      (fun o => (Except.ok (st, o) : Except String (ConnState × Option StreamMessage))) hf
  · show (match utf8String? bytes with
      | none => Except.error "reader task panicked: String::from_utf8 failed"
      | some s => processText st s) = _
    rw [hb]
    show processText st s = _
    rw [processText, h]
    exact congrArg
      (fun o => (Except.ok (st, o) : Except String (ConnState × Option StreamMessage))) hf

/-- Witness for C2: a ping, a close, the repository's authorization test
envelope (consumed internally) and the fill envelope (forwarded), each at a
concrete state. -/
theorem ping_close_and_forwarding_rules_witness :
    processFrame Streamer.new (.ping [1])
      = .ok ({ shutdown := false, outbound := [.pong pongPayload] }, none)
    ∧ processFrame Streamer.new .close
      = .ok ({ shutdown := true, outbound := [] }, none)
    ∧ processFrame Streamer.new (.text authText) = .ok (Streamer.new, none)
    ∧ processFrame Streamer.new (.text fillText)
      = .ok (Streamer.new, some fillEvent) := by
  have A := ping_close_and_forwarding_rules Streamer.new [1] [] authText
    (.Authorization { status := .Authorized, action := .Authenticate })
  have B := ping_close_and_forwarding_rules Streamer.new [1] [] fillText fillEvent
  exact ⟨A.1, A.2.1, A.2.2.1 rfl, B.2.2.1 rfl⟩

/-- C3 (counterexample): after `stop()` has set the shutdown flag, a
`trade_updates` frame arriving on the socket is still forwarded to the
caller-visible sequence — the reader path does not consult the flag — so
"no further domain events are forwarded after `stop()`" fails on the
code. -/
theorem forwarding_continues_after_stop :
    processFrame (Streamer.stop Streamer.new) (.text fillText)
      = .ok (Streamer.stop Streamer.new, some fillEvent) := by rfl

/-- C3 (amended): `stop()` sets the shared shutdown flag, and once the
writer loop observes the flag true (after `k` iterations that observed it
false) it terminates having sent exactly the `k` frames taken before the
flag was seen — no further queued frame beyond the one already in flight
is ever sent.  Domain-event forwarding, however, continues until the
connection closes (see the counterexample). -/
theorem stop_halts_writer :
    (∀ st : ConnState, (Streamer.stop st).shutdown = true)
    ∧ (∀ (k : Nat) (flags : List Bool) (q : List Message),
        writerLoop (List.replicate k false ++ true :: flags) q = List.take k q) := by
  refine ⟨fun st => rfl, ?_⟩
  intro k
  induction k with
  | zero => intro flags q; cases q <;> simp [writerLoop]
  | succ n ih =>
    intro flags q
    cases q with
    | nil => simp [writerLoop]
    | cons m ms => simp [writerLoop, List.replicate_succ, ih]

/-- C4: the claim says a failure to open the socket makes `start()` fail
with a `StreamingFailed` error kind.  The code instead `unwrap`s the
connection result (streaming.rs line 189): for every failing connection
outcome, `start` panics — no `InnerError` value is produced at all. -/
theorem connect_failure_panics_start :
    ∀ (key secret e : String),
      Streamer.start key secret (.error e)
        = .panicked ("called Result::unwrap on an Err value: " ++ e) :=
  fun _ _ _ => rfl

/-- C5: `start()` synchronously enqueues exactly two control frames — the
pre-serialized authentication frame (the one returned by `Alpaca::stream`)
first, then the subscription frame naming the fixed stream set
`trade_updates`, `account_updates` — and the FIFO writer loop writes them
to the socket in that order before any later-enqueued frame, whatever else
(`rest`) is enqueued afterwards. -/
theorem auth_frame_precedes_subscription :
    ∀ (key secret : String) (flags : List Bool) (rest : List Message),
      startQueue key secret
        = [.text ((authMessage key secret).render), .text (listenMessage.render)]
      ∧ (∀ host, (Alpaca.stream host key secret).2 = (authMessage key secret).render)
      ∧ (listenMessage.getField "data").bind (fun d => d.getField "streams")
          = some (.arr [.str "trade_updates", .str "account_updates"])
      ∧ writerLoop (false :: false :: flags) (startQueue key secret ++ rest)
          = .text ((authMessage key secret).render)
            :: .text (listenMessage.render) :: writerLoop flags rest := by
  intro key secret flags rest
  refine ⟨rfl, fun _ => rfl, rfl, ?_⟩
  simp [startQueue, writerLoop]

/-- C6: the shared shutdown flag starts `false` at `Streamer::new`, is set
to `true` by `stop()` and by receipt of a `Close` frame, and no frame
processed by the reader ever resets it to `false`. -/
theorem shutdown_flag_lifecycle :
    Streamer.new.shutdown = false
    ∧ (∀ st : ConnState, (Streamer.stop st).shutdown = true)
    ∧ (∀ st : ConnState,
        processFrame st .close = .ok ({ st with shutdown := true }, none))
    ∧ (∀ (st : ConnState) (m : Message) (st' : ConnState) (out : Option StreamMessage),
        processFrame st m = .ok (st', out) → st.shutdown = true → st'.shutdown = true) := by
  refine ⟨rfl, fun _ => rfl, fun _ => rfl, ?_⟩
  intro st m st' out h hsd
  cases m with
  | ping p =>
    simp only [processFrame, Except.ok.injEq, Prod.mk.injEq] at h
    rw [← h.1]
    exact hsd
  | close =>
    simp only [processFrame, Except.ok.injEq, Prod.mk.injEq] at h
    rw [← h.1]
  | text s => rw [processText_state st s st' out h]; exact hsd
  | binary bytes =>
    show st'.shutdown = true
    have h' : (match utf8String? bytes with
      | none => Except.error "reader task panicked: String::from_utf8 failed"
      | some s => processText st s) = .ok (st', out) := h
    cases hu : utf8String? bytes with
    | none => rw [hu] at h'; cases h'
    | some s => rw [hu] at h'; rw [processText_state st s st' out h']; exact hsd
  | pong p =>
    simp only [processFrame, Except.ok.injEq, Prod.mk.injEq] at h
    rw [← h.1]
    exact hsd

/-- Witness for C6: the flag is false at creation, true after `stop`, and a
ping processed in a shut-down state leaves the flag true. -/
theorem shutdown_flag_lifecycle_witness :
    Streamer.new.shutdown = false
    ∧ (Streamer.stop Streamer.new).shutdown = true
    ∧ (({ shutdown := true, outbound := [.pong pongPayload] } : ConnState)).shutdown = true := by
  refine ⟨shutdown_flag_lifecycle.1, shutdown_flag_lifecycle.2.1 Streamer.new, ?_⟩
  exact shutdown_flag_lifecycle.2.2.2 { shutdown := true, outbound := [] } (.ping [2])
    { shutdown := true, outbound := [.pong pongPayload] } none rfl rfl

/-- C7: `place()` validates client-side before any network call — a limit
or stop-limit order with no limit price, a stop or stop-limit order with
no stop price, or an extended-hours order that is not a Limit order with
DAY time-in-force fails with an `OrderInvalid` kind and issues no HTTP
request (request count 0), whatever the transport would have answered. -/
theorem place_validates_before_network :
    ∀ (b : OrderBuilder) (resp : HttpResponse),
      (((b.order_type = .Limit ∨ b.order_type = .StopLimit) ∧ b.limit_price = none) ∨
       ((b.order_type = .Stop ∨ b.order_type = .StopLimit) ∧ b.stop_price = none) ∨
       (b.extended_hours = true ∧ (b.order_type ≠ .Limit ∨ b.time_in_force ≠ .DAY))) →
      ∃ reason, b.place resp = (.error (.OrderInvalid reason), 0) := by
  intro b resp hviol
  unfold OrderBuilder.place
  split
  · exact ⟨_, rfl⟩
  · split
    · exact ⟨_, rfl⟩
    · split
      · exact ⟨_, rfl⟩
      · rename_i h1 h2 h3
        rcases hviol with hA | hB | hC
        · exact absurd hA h1
        · exact absurd hB h2
        · exact absurd hC h3

/-- Witness for C7: a limit buy with no limit price fails with
`OrderInvalid` and zero requests issued. -/
theorem place_validates_before_network_witness :
    ∃ reason,
      (Order.buy "AAPL" 100 .Limit .DAY).place { status := 200, body := .null }
        = (.error (.OrderInvalid reason), 0) :=
  place_validates_before_network _ _ (Or.inl ⟨Or.inl rfl, rfl⟩)

/-- C8 (counterexample): the same numeric value 2147483648, arriving at an
`i32` field as a JSON string and as a JSON number, does not decode to the
same typed value — the string fails with a decode error while the number
decodes to the truncated value -2147483648 — refuting the claim's
universal "both representations decode to the same typed numeric value". -/
theorem numeric_string_number_disagree :
    to_i32 (Json.str "2147483648") = .error "invalid i32 literal"
    ∧ to_i32 (Json.num 2147483648) = .ok (-2147483648) := ⟨rfl, rfl⟩

/-- C8 (amended): for values parsing within the target type's range the
string and number representations agree for every numeric coercion helper
(float, `i32`, `u32`); and the claim's concrete example holds: the
`trade_updates` envelope with event `fill`, `price` as the JSON string
"179.08" and `position_qty` as the number 100 decodes to a Fill variant
with price = 179.08 and qty = 100 and is forwarded to the caller-visible
sequence.  (Outside the target range the representations disagree — see
the counterexample.) -/
theorem numeric_coercion_agreement :
    (∀ (s : String) (q : ℚ), rustParseF64 s = some q →
      to_f64 (.str s) = .ok q ∧ to_f64 (.num q) = .ok q)
    ∧ (∀ (s : String) (v : ℤ), rustParseI32 s = some v →
      to_i32 (.str s) = .ok v ∧ to_i32 (.num ((v : ℤ) : ℚ)) = .ok v)
    ∧ (∀ (s : String) (v : ℤ), rustParseU32 s = some v →
      to_u32 (.str s) = .ok v ∧ to_u32 (.num ((v : ℤ) : ℚ)) = .ok v)
    ∧ from_str fillText = .ok (.Order (.Fill fillTimestamp 179.08 100 sampleOrder))
    ∧ processFrame Streamer.new (.text fillText)
        = .ok (Streamer.new, some (.Order (.Fill fillTimestamp 179.08 100 sampleOrder))) := by
  have h179 : (179.08 : ℚ) = mkRat 17908 100 := by norm_num [Rat.mkRat_eq_div]
  refine ⟨?_, ?_, ?_, ?_, ?_⟩
  · intro s q hp
    exact ⟨by simp [to_f64, hp], rfl⟩
  · intro s v hp
    obtain ⟨hraw, hlo, hhi⟩ := parseI32_bounds s v hp
    refine ⟨by simp [to_i32, hp], ?_⟩
    have h64 : Number.as_i64 ((v : ℚ)) = some v := as_i64_intCast v (by omega) (by omega)
    have hwrap : wrapI32 v = v := by unfold wrapI32; omega
    simp [to_i32, h64, hwrap]
  · intro s v hp
    have hb : rustParseIntRaw s = some v ∧ 0 ≤ v ∧ v < 2 ^ 32 := by
      unfold rustParseU32 at hp
      split at hp
      · cases hp
      · obtain ⟨w, hw, hf⟩ := Option.bind_eq_some.mp hp
        by_cases hc : 0 ≤ w ∧ w < 2 ^ 32
        · rw [if_pos hc] at hf
          obtain rfl := Option.some.inj hf
          exact ⟨hw, hc⟩
        · rw [if_neg hc] at hf; cases hf
    obtain ⟨hraw, hlo, hhi⟩ := hb
    refine ⟨by simp [to_u32, hp], ?_⟩
    have h64 : Number.as_u64 ((v : ℚ)) = some v := as_u64_intCast v hlo (by omega)
    have hwrap : wrapU32 v = v := by unfold wrapU32; omega
    simp [to_u32, h64, hwrap]
  · rw [h179]; rfl
  · rw [h179]; rfl

/-- Witness for C8: the agreement applied at the string "179.08" for
floats and at 100 for both integer helpers. -/
theorem numeric_coercion_agreement_witness :
    (to_f64 (.str "179.08") = .ok (mkRat 17908 100)
      ∧ to_f64 (.num (mkRat 17908 100)) = .ok (mkRat 17908 100))
    ∧ (to_i32 (.str "100") = .ok 100 ∧ to_i32 (.num ((100 : ℤ) : ℚ)) = .ok 100)
    ∧ (to_u32 (.str "100") = .ok 100 ∧ to_u32 (.num ((100 : ℤ) : ℚ)) = .ok 100) :=
  ⟨numeric_coercion_agreement.1 "179.08" (mkRat 17908 100) rfl,
   numeric_coercion_agreement.2.1 "100" 100 rfl,
   numeric_coercion_agreement.2.2.1 "100" 100 rfl⟩

/-- C9: `cancel()` issues `DELETE v2/orders/\x7bid\x7d` and maps the
response status: 2xx → `Ok(())`, 404 → `OrderNotFound` with the order's
id, 422 → `OrderNotCancelable` with the order's id, and any other
non-success status → the opaque `Unknown` kind. -/
theorem cancel_delete_and_status_mapping :
    ∀ (o : Order) (status : Nat),
      Order.cancelRequest o = ("DELETE", "v2/orders/" ++ o.id)
      ∧ (isSuccess status = true → o.cancel status = .ok ())
      ∧ o.cancel 404 = .error (.OrderNotFound o.id)
      ∧ o.cancel 422 = .error (.OrderNotCancelable o.id)
      ∧ (isSuccess status = false → status ≠ 404 → status ≠ 422 →
          o.cancel status = .error .Unknown) := by
  intro o status
  refine ⟨rfl, fun h => ?_, rfl, rfl, fun h h4 h42 => ?_⟩
  · simp [Order.cancel, h]
  · simp only [Order.cancel, h, Bool.false_eq_true, if_false]

/-- Witness for C9: the mapping at the sample order and the statuses 204,
404, 422 and 500. -/
theorem cancel_delete_and_status_mapping_witness :
    (Order.cancelRequest sampleOrder
      = ("DELETE", "v2/orders/904837e3-3b76-47ec-b432-046db621571b"))
    ∧ sampleOrder.cancel 204 = .ok ()
    ∧ sampleOrder.cancel 404
      = .error (.OrderNotFound "904837e3-3b76-47ec-b432-046db621571b")
    ∧ sampleOrder.cancel 422
      = .error (.OrderNotCancelable "904837e3-3b76-47ec-b432-046db621571b")
    ∧ sampleOrder.cancel 500 = .error .Unknown := by
  have A := cancel_delete_and_status_mapping sampleOrder 204
  have B := cancel_delete_and_status_mapping sampleOrder 500
  exact ⟨A.1, A.2.1 rfl, A.2.2.1, A.2.2.2.1,
    B.2.2.2.2 rfl (by decide) (by decide)⟩

/-- C10: integer coercion is asymmetric at the `i32` boundary — a JSON
number whose integer value lies outside the `i32` range (but is a 64-bit
value, i.e. representable as an `i64`) decodes successfully to the value
truncated modulo 2^32 (in particular 2147483648 decodes to -2147483648),
whereas the same value arriving as a JSON string fails with a decode
error. -/
theorem i32_coercion_asymmetry :
    (∀ n : ℤ, (n < -(2 ^ 31) ∨ 2 ^ 31 ≤ n) → -(2 ^ 63) ≤ n → n < 2 ^ 63 →
      to_i32 (.num (n : ℚ)) = .ok (wrapI32 n)
      ∧ wrapI32 n = (n + 2 ^ 31) % 2 ^ 32 - 2 ^ 31)
    ∧ to_i32 (.num 2147483648) = .ok (-2147483648)
    ∧ (∀ (s : String) (n : ℤ), rustParseIntRaw s = some n →
        (n < -(2 ^ 31) ∨ 2 ^ 31 ≤ n) →
        to_i32 (.str s) = .error "invalid i32 literal")
    ∧ to_i32 (.str "2147483648") = .error "invalid i32 literal" := by
  refine ⟨?_, rfl, ?_, rfl⟩
  · intro n hout hlo hhi
    refine ⟨?_, rfl⟩
    simp [to_i32, as_i64_intCast n hlo hhi]
  · intro s n hp hout
    have hnone : rustParseI32 s = none := by
      unfold rustParseI32
      rw [hp]
      simp only [Option.some_bind]
      rw [if_neg]
      omega
    simp [to_i32, hnone]

/-- Witness for C10: the asymmetry applied at 2147483648 — number form
truncates to -2147483648, string form fails. -/
theorem i32_coercion_asymmetry_witness :
    to_i32 (.num ((2147483648 : ℤ) : ℚ)) = .ok (wrapI32 2147483648)
    ∧ wrapI32 2147483648 = -2147483648
    ∧ to_i32 (.str "2147483648") = .error "invalid i32 literal" := by
  have A := i32_coercion_asymmetry.1 2147483648 (by decide) (by decide) (by decide)
  have B := i32_coercion_asymmetry.2.2.1 "2147483648" 2147483648 rfl (by decide)
  exact ⟨A.1, by decide, B⟩

end AlpacaRs
